import Mathlib

/-!
Verification of the resource-orchestration and convergence-polling logic of
the provider plugin.  Pure Go functions are translated into executable Lean
definitions; remote API interactions are modelled by passing the sequence of
API responses (a trace) explicitly.  The framework-supplied polling and retry
utilities, which the repository only configures, are modelled from the spec.
-/

namespace Spec2Proof

/-- A provider API error: a machine-readable code plus a message
(model of the awserr error shape matched with tfawserr). -/
structure ApiError where
  code : String
  message : String
deriving Repr, DecidableEq

/-- Model of tfawserr.ErrMessageContains with an empty wanted-message
argument (as at every call site in the sources): matches exactly when the
error carries the given code. -/
def errMessageContains (e : ApiError) (code : String) : Bool :=
  e.code == code

/-- Classification of a remote API call issued by an orchestrator. -/
inductive CallKind where
  | mutate
  | read
  | poll
deriving Repr, DecidableEq

/-- A logged remote interaction: operation name and its classification. -/
structure ApiCall where
  name : String
  kind : CallKind
deriving Repr, DecidableEq

/-- Number of mutating API calls in a call log. -/
def countMutating (l : List ApiCall) : Nat :=
  (l.filter (fun c => c.kind == CallKind.mutate)).length

/-- The portion of a call log issued before the first delegation to the
convergence poller. -/
def callsBeforePoll (l : List ApiCall) : List ApiCall :=
  l.takeWhile (fun c => c.kind != CallKind.poll)

/-- One observation produced by a state-refresh function: either a value and
a status token (the Go (value, state, nil) triple) or a refresh error. -/
inductive Refresh (V : Type) where
  | ok (v : V) (status : String)
  | err (msg : String)
deriving Repr, DecidableEq

/-- Modelled from the spec: the PollSpec consumed by the Convergence Poller
(framework resource.StateChangeConf, absent from src/): pending states,
target states and the required number of consecutive target observations
(default 1). -/
structure PollSpec where
  pending : List String
  target : List String
  continuousTarget : Nat := 1
deriving Repr, DecidableEq

/-- The failure kinds of a poll outcome. -/
inductive PollFailure where
  | timeout
  | unexpected (status : String)
  | refreshErr (msg : String)
deriving Repr, DecidableEq

/-- Outcome of a poll: Success(value, finalStatusToken) or Failure(kind). -/
inductive PollOutcome (V : Type) where
  | success (v : V) (status : String)
  | failure (k : PollFailure)
deriving Repr, DecidableEq

/-- Modelled from the spec: the Convergence Poller loop (framework
StateChangeConf.WaitForState, absent from src/), driven over an explicit
trace of refresh observations; exhausting the trace models the configured
timeout elapsing while still pending.  A target observation increments the
consecutive-success counter and succeeds once it reaches
continuousTarget; a pending observation (or any non-target observation when
the pending set is empty, the wildcard of the spec) resets the counter; a status
in neither set aborts with an unexpected-state failure; a refresh error
aborts at once.  Returns the outcome together with the unconsumed trace. -/
def waitForStateAux (spec : PollSpec) :
    List (Refresh V) → Nat → PollOutcome V × List (Refresh V)
  | [], _ => (PollOutcome.failure PollFailure.timeout, [])
  | o :: rest, cnt =>
    match o with
    | Refresh.err m => (PollOutcome.failure (PollFailure.refreshErr m), rest)
    | Refresh.ok v s =>
      if spec.target.contains s then
        if spec.continuousTarget ≤ cnt + 1 then (PollOutcome.success v s, rest)
        else waitForStateAux spec rest (cnt + 1)
      else if spec.pending.contains s || spec.pending.isEmpty then
        waitForStateAux spec rest 0
      else (PollOutcome.failure (PollFailure.unexpected s), rest)

/-- Modelled from the spec: run the Convergence Poller from a fresh counter. -/
def waitForState (spec : PollSpec) (trace : List (Refresh V)) :
    PollOutcome V × List (Refresh V) :=
  waitForStateAux spec trace 0

/-- One evaluation of the closure passed to the framework retry helper. -/
inductive RetryStep (ε : Type) where
  | ok
  | retryable (e : ε)
  | nonRetryable (e : ε)
deriving Repr, DecidableEq

/-- Result of the framework retry helper. -/
inductive RetryResult (ε : Type) where
  | ok
  | failed (e : ε)
  | timedOut (e : ε)
deriving Repr, DecidableEq

/-- Modelled from the spec: the framework retry helper (resource.Retry,
absent from src/), driven over an explicit trace of evaluations of its
closure; exhausting the trace while the closure keeps returning a retryable
error models the retry window elapsing, in which case the last retryable
error is carried in the timed-out result (tfresource.TimedOut detects
exactly that result). -/
def retryAux : List (RetryStep ε) → ε → RetryResult ε
  | [], last => RetryResult.timedOut last
  | s :: rest, _ =>
    match s with
    | RetryStep.ok => RetryResult.ok
    | RetryStep.nonRetryable e => RetryResult.failed e
    | RetryStep.retryable e => retryAux rest e

/-- Modelled from the spec: the framework retry helper entry point. -/
def resourceRetry (steps : List (RetryStep ε)) (initial : ε) : RetryResult ε :=
  retryAux steps initial

/-- SQS queue attribute name for the resource policy (sqs.QueueAttributeNamePolicy). -/
def queueAttributeNamePolicy : String := "Policy"

/-- SQS queue attribute name for the redrive policy. -/
def queueAttributeNameRedrivePolicy : String := "RedrivePolicy"

/-- SQS queue attribute name for the KMS data-key reuse period. -/
def queueAttributeNameKmsDataKeyReusePeriodSeconds : String :=
  "KmsDataKeyReusePeriodSeconds"

/-- Modelled from the spec: the hardcoded default KMS data-key reuse period
(constant DefaultQueueKMSDataKeyReusePeriodSeconds, declared outside src/). -/
def DefaultQueueKMSDataKeyReusePeriodSeconds : Nat := 300

/-- The Go strconv.Itoa rendering of the default reuse period. -/
def defaultKmsReuseStr : String := toString DefaultQueueKMSDataKeyReusePeriodSeconds

/-- The attributesMatch closure of waitQueueAttributesPropagated, recursing
over the expected attribute list.  polEq models the external policy
equivalence check (awspolicy.PoliciesAreEquivalent), strEqv models
StringsEquivalent (declared outside src/); both are passed in as they are
external to the translated function.  A key missing from the fetched map is
accepted when the expected value is empty, or when it is the KMS data-key
reuse-period attribute expected at its hardcoded default. -/
def attributesMatch (polEq : String → String → Except String Bool)
    (strEqv : String → String → Bool) :
    List (String × String) → List (String × String) → Except String Unit
  | [], _ => Except.ok ()
  | (k, e) :: rest, got =>
    match got.lookup k with
    | none =>
      if e == "" then attributesMatch polEq strEqv rest got
      else if k == queueAttributeNameKmsDataKeyReusePeriodSeconds
          && e == defaultKmsReuseStr then
        attributesMatch polEq strEqv rest got
      else Except.error ("SQS Queue attribute (" ++ k ++ ") not available")
    | some g =>
      if k == queueAttributeNamePolicy then
        match polEq g e with
        | Except.error er => Except.error er
        | Except.ok true => attributesMatch polEq strEqv rest got
        | Except.ok false => Except.error "SQS Queue policies are not equivalent"
      else if k == queueAttributeNameRedrivePolicy then
        if strEqv g e then attributesMatch polEq strEqv rest got
        else Except.error "SQS Queue redrive policies are not equivalent"
      else if g == e then attributesMatch polEq strEqv rest got
      else Except.error ("SQS Queue attribute (" ++ k ++ ") mismatch")

/-- One retry-closure evaluation inside waitQueueAttributesPropagated: a
fetch error is non-retryable, a failed attribute comparison is retryable. -/
def queueAttributesStep (polEq : String → String → Except String Bool)
    (strEqv : String → String → Bool) (expected : List (String × String))
    (fetch : Except String (List (String × String))) : RetryStep String :=
  match fetch with
  | Except.error e => RetryStep.nonRetryable e
  | Except.ok got =>
    match attributesMatch polEq strEqv expected got with
    | Except.ok _ => RetryStep.ok
    | Except.error e => RetryStep.retryable e

/-- waitQueueAttributesPropagated: retry the fetch-and-compare closure over
the propagation window (fetches); on a timed-out retry, perform one final
fetch (finalFetch) and comparison, whose error, if any, is returned. -/
def waitQueueAttributesPropagated (polEq : String → String → Except String Bool)
    (strEqv : String → String → Bool) (expected : List (String × String))
    (fetches : List (Except String (List (String × String))))
    (finalFetch : Except String (List (String × String))) : Except String Unit :=
  match resourceRetry (fetches.map (queueAttributesStep polEq strEqv expected))
      "attributes not propagated" with
  | RetryResult.ok => Except.ok ()
  | RetryResult.failed e => Except.error e
  | RetryResult.timedOut _ =>
    match finalFetch with
    | Except.error e => Except.error e
    | Except.ok got => attributesMatch polEq strEqv expected got

/-- The synthetic queue existence state token (queueStateExists). -/
def queueStateExists : String := "exists"

/-- The StateChangeConf built by waitQueueDeleted: pending is the existence
token, the target set is empty, and three consecutive target observations
are required. -/
def waitQueueDeletedConf : PollSpec :=
  { pending := [queueStateExists], target := [], continuousTarget := 3 }

/-- One retry-closure evaluation of the Elasticsearch domain polling loops:
a describe error is non-retryable; a domain still Processing yields the
retryable timeout-message error; otherwise the closure succeeds. -/
def domainProcessingStep (msg : String) (descr : Except String Bool) :
    RetryStep String :=
  match descr with
  | Except.error e => RetryStep.nonRetryable e
  | Except.ok processing =>
    if processing then RetryStep.retryable msg else RetryStep.ok

/-- The post-mutation wait of resourceDomainPolicyUpsert: retry describing
the domain until it is no longer Processing; on a timed-out retry, describe
once more (finalDescribe) and return nil when no longer Processing.  Because
the Go code assigns the error of that final describe to the outer err variable,
a final describe that succeeds but still reports Processing leaves err nil
and the function falls through to the delegated read (readResult). -/
def resourceDomainPolicyUpsertWait (describes : List (Except String Bool))
    (finalDescribe : Except String Bool) (readResult : Except String Unit) :
    Except String Unit :=
  match resourceRetry
      (describes.map (domainProcessingStep
        "Timeout while waiting for changes to be processed"))
      "Timeout while waiting for changes to be processed" with
  | RetryResult.ok => readResult
  | RetryResult.failed e =>
    Except.error ("Error upserting Elasticsearch domain policy: " ++ e)
  | RetryResult.timedOut last =>
    match finalDescribe with
    | Except.ok false => Except.ok ()
    | Except.ok true => readResult
    | Except.error e =>
      let _ := last
      Except.error ("Error upserting Elasticsearch domain policy: " ++ e)

/-- The post-mutation wait of resourceDomainPolicyDelete: same retry loop,
but the error of the final describe is bound to a shadowing variable, so when the
domain is still Processing after the window the preserved timeout error is
returned as a deletion error. -/
def resourceDomainPolicyDeleteWait (describes : List (Except String Bool))
    (finalDescribe : Except String Bool) : Except String Unit :=
  match resourceRetry
      (describes.map (domainProcessingStep
        "Timeout while waiting for policy to be deleted"))
      "Timeout while waiting for policy to be deleted" with
  | RetryResult.ok => Except.ok ()
  | RetryResult.failed e =>
    Except.error ("Error deleting Elasticsearch domain policy: " ++ e)
  | RetryResult.timedOut last =>
    match finalDescribe with
    | Except.ok false => Except.ok ()
    | _ => Except.error ("Error deleting Elasticsearch domain policy: " ++ last)

/-- The synthetic deleted state token (constant VpcCidrBlockStateCodeDeleted). -/
def VpcCidrBlockStateCodeDeleted : String := "deleted"

/-- ec2.VpcCidrBlockStateCodeAssociating. -/
def vpcCidrBlockStateCodeAssociating : String := "associating"

/-- ec2.VpcCidrBlockStateCodeAssociated. -/
def vpcCidrBlockStateCodeAssociated : String := "associated"

/-- ec2.VpcCidrBlockStateCodeDisassociating. -/
def vpcCidrBlockStateCodeDisassociating : String := "disassociating"

/-- ec2.VpcCidrBlockStateCodeDisassociated. -/
def vpcCidrBlockStateCodeDisassociated : String := "disassociated"

/-- The VPC not-found error code matched by the CIDR association resource. -/
def invalidVpcNotFoundCode : String := "InvalidVpcID.NotFound"

/-- A VPC CIDR block association entry as returned by the describe calls:
association id, CIDR block and its CidrBlockState.State token. -/
structure CidrAssoc where
  associationId : String
  cidrBlock : String
  stateCode : String
deriving Repr, DecidableEq

/-- A VPC as returned by the describe calls. -/
structure Vpc where
  vpcId : String
  cidrBlockAssociationSet : List CidrAssoc
deriving Repr, DecidableEq

/-- Modelled from the spec: the vpcDescribe helper (declared outside src/):
describe the VPC, mapping the VPC not-found error class to an absent VPC so
that legitimately-gone objects are distinguished from read failures, per the
refresh-function responsibility stated by the spec. -/
def vpcDescribe (resp : Except ApiError (Option Vpc)) :
    Except ApiError (Option Vpc) :=
  match resp with
  | Except.error e =>
    if errMessageContains e invalidVpcNotFoundCode then Except.ok none
    else Except.error e
  | Except.ok v => Except.ok v

/-- vpcIpv4CidrBlockAssociationStateRefresh: one refresh observation from one
raw describe response.  A describe error surfaces as a refresh error; when
the VPC is present and contains the association, its state token is
reported; otherwise the synthetic deleted token is reported with no error. -/
def vpcIpv4CidrBlockAssociationStateRefresh (assocId : String)
    (resp : Except ApiError (Option Vpc)) : Refresh (Option CidrAssoc) :=
  match vpcDescribe resp with
  | Except.error e => Refresh.err e.message
  | Except.ok vpcOpt =>
    match (match vpcOpt with
      | some vpc =>
        vpc.cidrBlockAssociationSet.find? (fun a => a.associationId == assocId)
      | none => none) with
    | some a => Refresh.ok (some a) a.stateCode
    | none => Refresh.ok none VpcCidrBlockStateCodeDeleted

/-- The StateChangeConf built by resourceVPCIPv4CIDRBlockAssociationCreate. -/
def vpcAssociationCreateConf : PollSpec :=
  { pending := [vpcCidrBlockStateCodeAssociating]
    target := [vpcCidrBlockStateCodeAssociated]
    continuousTarget := 1 }

/-- The StateChangeConf built by resourceVPCIPv4CIDRBlockAssociationDelete. -/
def vpcAssociationDeleteConf : PollSpec :=
  { pending := [vpcCidrBlockStateCodeDisassociating]
    target := [vpcCidrBlockStateCodeDisassociated, VpcCidrBlockStateCodeDeleted]
    continuousTarget := 1 }

/-- The locally recorded state of a VPC CIDR association resource: the
identifier plus the attributes set by the read path. -/
structure VpcCidrState where
  id : String
  vpcId : String
  cidrBlock : String
deriving Repr, DecidableEq

/-- resourceVPCIPv4CIDRBlockAssociationRead over one DescribeVpcs response
(a list of possibly-nil VPC entries; the empty list also covers a nil
output).  An API error is surfaced; an empty or nil-headed result, or a VPC
whose association set does not contain the recorded identifier, clears the
identifier and returns nil; otherwise the CIDR block and VPC id attributes
are recorded. -/
def resourceVPCIPv4CIDRBlockAssociationRead
    (resp : Except ApiError (List (Option Vpc))) (st : VpcCidrState) :
    Except String Unit × VpcCidrState × List ApiCall :=
  let calls := [ApiCall.mk "DescribeVpcs" CallKind.read]
  match resp with
  | Except.error e =>
    (Except.error ("error describing VPCs: " ++ e.message), st, calls)
  | Except.ok vpcs =>
    match vpcs.head? with
    | none => (Except.ok (), { st with id := "" }, calls)
    | some none => (Except.ok (), { st with id := "" }, calls)
    | some (some vpc) =>
      match vpc.cidrBlockAssociationSet.find?
          (fun a => a.associationId == st.id) with
      | none => (Except.ok (), { st with id := "" }, calls)
      | some a =>
        (Except.ok (),
          { st with cidrBlock := a.cidrBlock, vpcId := vpc.vpcId }, calls)

/-- The remote responses consumed by one run of the VPC CIDR association
create orchestrator: the AssociateVpcCidrBlock response (the new association
id on success), the describe responses observed by the refresh function
while polling, and the DescribeVpcs response of the delegated read. -/
structure VpcCidrCreateEnv where
  associateResp : Except ApiError String
  refreshResps : List (Except ApiError (Option Vpc))
  readResp : Except ApiError (List (Option Vpc))
deriving Repr

/-- resourceVPCIPv4CIDRBlockAssociationCreate: issue the single mutating
associate call; on success record the provider-assigned association id, then
delegate to the convergence poller (pending associating, target associated);
on poll failure surface an error (the id stays recorded); on poll success
delegate to the read path. -/
def resourceVPCIPv4CIDRBlockAssociationCreate (env : VpcCidrCreateEnv)
    (st : VpcCidrState) : Except String Unit × VpcCidrState × List ApiCall :=
  let assocCall := [ApiCall.mk "AssociateVpcCidrBlock" CallKind.mutate]
  match env.associateResp with
  | Except.error e =>
    (Except.error ("Error creating VPC IPv4 CIDR block association: "
        ++ e.message), st, assocCall)
  | Except.ok assocId =>
    let st1 := { st with id := assocId }
    let pollCall := ApiCall.mk "WaitForState" CallKind.poll
    let trace :=
      env.refreshResps.map (vpcIpv4CidrBlockAssociationStateRefresh assocId)
    match (waitForState vpcAssociationCreateConf trace).fst with
    | PollOutcome.failure _ =>
      (Except.error ("Error waiting for IPv4 CIDR block association ("
          ++ assocId ++ ") to become available"), st1,
        assocCall ++ [pollCall])
    | PollOutcome.success _ _ =>
      let (r, st2, readCalls) :=
        resourceVPCIPv4CIDRBlockAssociationRead env.readResp st1
      (r, st2, assocCall ++ [pollCall] ++ readCalls)

/-- resourceVPCIPv4CIDRBlockAssociationDelete: issue the single mutating
disassociate call; an error of the VPC not-found class is success without
polling; any other error is surfaced; otherwise delegate to the convergence
poller with the disassociated and deleted target states. -/
def resourceVPCIPv4CIDRBlockAssociationDelete
    (disResp : Except ApiError Unit)
    (refreshResps : List (Except ApiError (Option Vpc))) (st : VpcCidrState) :
    Except String Unit × List ApiCall :=
  let disCall := [ApiCall.mk "DisassociateVpcCidrBlock" CallKind.mutate]
  match disResp with
  | Except.error e =>
    if errMessageContains e invalidVpcNotFoundCode then (Except.ok (), disCall)
    else
      (Except.error ("Error deleting VPC IPv4 CIDR block association: "
          ++ e.message), disCall)
  | Except.ok _ =>
    let pollCall := ApiCall.mk "WaitForState" CallKind.poll
    let trace :=
      refreshResps.map (vpcIpv4CidrBlockAssociationStateRefresh st.id)
    match (waitForState vpcAssociationDeleteConf trace).fst with
    | PollOutcome.success _ _ => (Except.ok (), disCall ++ [pollCall])
    | PollOutcome.failure _ =>
      (Except.error ("Error waiting for VPC IPv4 CIDR block association ("
          ++ st.id ++ ") to be deleted"), disCall ++ [pollCall])

/-- ec2.TransitGatewayConnectPeerStateDeleted. -/
def transitGatewayConnectPeerStateDeleted : String := "deleted"

/-- ec2.TransitGatewayConnectPeerStatePending. -/
def transitGatewayConnectPeerStatePending : String := "pending"

/-- ec2.TransitGatewayConnectPeerStateAvailable. -/
def transitGatewayConnectPeerStateAvailable : String := "available"

/-- ec2.TransitGatewayConnectPeerStateDeleting. -/
def transitGatewayConnectPeerStateDeleting : String := "deleting"

/-- ec2.TransitGatewayAttachmentStateDeleting. -/
def transitGatewayAttachmentStateDeleting : String := "deleting"

/-- ec2.TransitGatewayAttachmentStateDeleted. -/
def transitGatewayAttachmentStateDeleted : String := "deleted"

/-- The connect-peer not-found error code. -/
def invalidConnectPeerNotFoundCode : String :=
  "InvalidTransitGatewayConnectPeerID.NotFound"

/-- The attachment not-found error code. -/
def invalidAttachmentNotFoundCode : String :=
  "InvalidTransitGatewayAttachmentID.NotFound"

/-- A transit gateway connect peer as returned by the describe call. -/
structure Peer where
  peerId : String
  state : String
deriving Repr, DecidableEq

/-- One page of a DescribeTransitGatewayConnectPeers response: the (possibly
nil) peer entries and the pagination token. -/
structure PeersPage where
  peers : List (Option Peer)
  nextToken : String
deriving Repr, DecidableEq

/-- DescribeTransitGatewayConnectPeer over the trace of per-page responses
(an entry of ok none models a nil output).  A call error is surfaced; a nil
or empty page yields no peer; a page entry matching the requested id is
returned; an empty pagination token ends the scan with no peer; otherwise
the next response is consumed.  Traces are assumed to cover the calls made
(an exhausted trace ends the scan). -/
def DescribeTransitGatewayConnectPeer (pid : String) :
    List (Except ApiError (Option PeersPage)) → Except ApiError (Option Peer)
  | [] => Except.ok none
  | r :: rest =>
    match r with
    | Except.error e => Except.error e
    | Except.ok none => Except.ok none
    | Except.ok (some page) =>
      if page.peers.isEmpty then Except.ok none
      else
        match page.peers.findSome?
            (fun p? => match p? with
              | none => none
              | some p => if p.peerId == pid then some p else none) with
        | some p => Except.ok (some p)
        | none =>
          if page.nextToken == "" then Except.ok none
          else DescribeTransitGatewayConnectPeer pid rest

/-- transitGatewayConnectPeerRefreshFunc: one refresh observation from the
describe trace.  The connect-peer not-found error class and an absent peer
both report the synthetic deleted token with no error; any other describe
error surfaces as a refresh error; a found peer reports its state token. -/
def transitGatewayConnectPeerRefreshFunc (pid : String)
    (resps : List (Except ApiError (Option PeersPage))) :
    Refresh (Option Peer) :=
  match DescribeTransitGatewayConnectPeer pid resps with
  | Except.error e =>
    if errMessageContains e invalidConnectPeerNotFoundCode then
      Refresh.ok none transitGatewayConnectPeerStateDeleted
    else
      Refresh.err ("error reading EC2 Transit Gateway Connect Peer ("
        ++ pid ++ "): " ++ e.message)
  | Except.ok none => Refresh.ok none transitGatewayConnectPeerStateDeleted
  | Except.ok (some p) => Refresh.ok (some p) p.state

/-- The StateChangeConf built by WaitForTransitGatewayConnectPeerDeletion. -/
def waitConnectPeerDeletionConf : PollSpec :=
  { pending := [transitGatewayConnectPeerStateAvailable,
      transitGatewayConnectPeerStateDeleting]
    target := [transitGatewayConnectPeerStateDeleted]
    continuousTarget := 1 }

/-- Modelled from the spec: the attachment-creation wait helper
(waitForTransitGatewayAttachmentCreation, declared outside src/): delegate
to the Convergence Poller with the attachment pending and available states. -/
def waitForTransitGatewayAttachmentCreation (trace : List (Refresh Unit)) :
    Except String Unit :=
  match (waitForState
      { pending := [transitGatewayConnectPeerStatePending]
        target := [transitGatewayConnectPeerStateAvailable]
        continuousTarget := 1 } trace).fst with
  | PollOutcome.success _ _ => Except.ok ()
  | PollOutcome.failure _ => Except.error "attachment did not become available"

/-- Modelled from the spec: the attachment-deletion wait helper
(WaitForTransitGatewayAttachmentDeletion, declared outside src/). -/
def WaitForTransitGatewayAttachmentDeletion (trace : List (Refresh Unit)) :
    Except String Unit :=
  match (waitForState
      { pending := [transitGatewayConnectPeerStateAvailable,
          transitGatewayAttachmentStateDeleting]
        target := [transitGatewayAttachmentStateDeleted]
        continuousTarget := 1 } trace).fst with
  | PollOutcome.success _ _ => Except.ok ()
  | PollOutcome.failure _ => Except.error "attachment was not deleted"

/-- Transit gateway options: the default route table identifiers. -/
structure TGWOptions where
  associationDefaultRouteTableId : String
  propagationDefaultRouteTableId : String
deriving Repr, DecidableEq

/-- A transit gateway as returned by the describe call. -/
structure TransitGateway where
  ownerId : String
  options : Option TGWOptions
deriving Repr, DecidableEq

/-- A transit gateway attachment as returned by the describe call. -/
structure TGWAttachment where
  resourceOwnerId : String
  transitGatewayId : String
deriving Repr, DecidableEq

/-- A transit gateway connect attachment as returned by the describe call. -/
structure TGWConnect where
  state : String
  transitGatewayId : String
  transportAttachmentId : String
  tags : List (String × String)
deriving Repr, DecidableEq

/-- Modelled from the spec: the route-table association update helper
(transitGatewayRouteTableAssociationUpdate, declared outside src/): read the
current association and issue a mutating associate or disassociate call
against the Cloud Provider API when the desired flag differs from the
current association. -/
def transitGatewayRouteTableAssociationUpdate (current : Option Unit)
    (associate : Bool) (mutResp : Except ApiError Unit) :
    Except ApiError Unit × List ApiCall :=
  let descr := ApiCall.mk "DescribeTransitGatewayRouteTableAssociation"
    CallKind.read
  match current, associate with
  | none, true =>
    (mutResp, [descr, ApiCall.mk "AssociateTransitGatewayRouteTable"
      CallKind.mutate])
  | some _, false =>
    (mutResp, [descr, ApiCall.mk "DisassociateTransitGatewayRouteTable"
      CallKind.mutate])
  | _, _ => (Except.ok (), [descr])

/-- Modelled from the spec: the route-table propagation update helper
(transitGatewayRouteTablePropagationUpdate, declared outside src/). -/
def transitGatewayRouteTablePropagationUpdate (current : Option Unit)
    (propagate : Bool) (mutResp : Except ApiError Unit) :
    Except ApiError Unit × List ApiCall :=
  let descr := ApiCall.mk "GetTransitGatewayRouteTablePropagations"
    CallKind.read
  match current, propagate with
  | none, true =>
    (mutResp, [descr, ApiCall.mk "EnableTransitGatewayRouteTablePropagation"
      CallKind.mutate])
  | some _, false =>
    (mutResp, [descr, ApiCall.mk "DisableTransitGatewayRouteTablePropagation"
      CallKind.mutate])
  | _, _ => (Except.ok (), [descr])

/-- The remote responses consumed by one run of the transit gateway connect
create orchestrator. -/
structure TGWConnectCreateEnv where
  createResp : Except ApiError String
  waitTrace : List (Refresh Unit)
  transportResp : Except ApiError TGWAttachment
  gatewayResp : Except ApiError TransitGateway
  assocCurrent : Option Unit
  propCurrent : Option Unit
  assocMutResp : Except ApiError Unit
  propMutResp : Except ApiError Unit
  readResult : Except String Unit
deriving Repr

/-- resourceTransitGatewayConnectCreate: issue the single mutating create
call, record the provider-assigned attachment id, wait for the attachment to
become available, describe the transport attachment and the gateway, and,
when the gateway is owned by the resource owner of the attachment, apply the
route-table association and propagation updates before delegating to the
read path.  Returns the result, the recorded identifier and the call log. -/
def resourceTransitGatewayConnectCreate (env : TGWConnectCreateEnv)
    (assocFlag propFlag : Bool) : Except String Unit × String × List ApiCall :=
  let createCall := ApiCall.mk "CreateTransitGatewayConnect" CallKind.mutate
  match env.createResp with
  | Except.error e =>
    (Except.error ("error creating EC2 Transit Gateway Connect Attachment: "
        ++ e.message), "", [createCall])
  | Except.ok attachmentId =>
    let pollCall := ApiCall.mk "WaitForTransitGatewayAttachmentCreation"
      CallKind.poll
    let log2 := [createCall, pollCall]
    match waitForTransitGatewayAttachmentCreation env.waitTrace with
    | Except.error m =>
      (Except.error ("error waiting for EC2 Transit Gateway Connect "
          ++ "Attachment (" ++ attachmentId ++ ") availability: " ++ m),
        attachmentId, log2)
    | Except.ok _ =>
      let log3 := log2
        ++ [ApiCall.mk "DescribeTransitGatewayAttachment" CallKind.read]
      match env.transportResp with
      | Except.error e =>
        (Except.error ("error describing EC2 Transit Gateway Attachment: "
            ++ e.message), attachmentId, log3)
      | Except.ok transport =>
        let log4 := log3
          ++ [ApiCall.mk "DescribeTransitGateway" CallKind.read]
        match env.gatewayResp with
        | Except.error e =>
          (Except.error ("error describing EC2 Transit Gateway: "
              ++ e.message), attachmentId, log4)
        | Except.ok gw =>
          match gw.options with
          | none =>
            (Except.error "error describing EC2 Transit Gateway: missing options",
              attachmentId, log4)
          | some _ =>
            if gw.ownerId == transport.resourceOwnerId then
              let (r1, c1) := transitGatewayRouteTableAssociationUpdate
                env.assocCurrent assocFlag env.assocMutResp
              match r1 with
              | Except.error e =>
                (Except.error ("error updating EC2 Transit Gateway Attachment ("
                    ++ attachmentId ++ ") Route Table association: "
                    ++ e.message), attachmentId, log4 ++ c1)
              | Except.ok _ =>
                let (r2, c2) := transitGatewayRouteTablePropagationUpdate
                  env.propCurrent propFlag env.propMutResp
                match r2 with
                | Except.error e =>
                  (Except.error ("error updating EC2 Transit Gateway Attachment ("
                      ++ attachmentId ++ ") Route Table propagation: "
                      ++ e.message), attachmentId, log4 ++ c1 ++ c2)
                | Except.ok _ =>
                  (env.readResult, attachmentId, log4 ++ c1 ++ c2)
            else (env.readResult, attachmentId, log4)

/-- The locally recorded state of a transit gateway connect resource. -/
structure TGWConnectState where
  id : String
  tags : List (String × String)
  defaultRouteTableAssociation : Bool
  defaultRouteTablePropagation : Bool
  transitGatewayId : String
  transportAttachmentId : String
deriving Repr, DecidableEq

/-- The remote responses consumed by one run of the transit gateway connect
read orchestrator.  connectResp models DescribeTransitGatewayConnect
(declared outside src/: a describe-by-id returning the attachment or nil);
assocResp and propResp model the route-table association and propagation
lookups. -/
structure TGWConnectReadEnv where
  connectResp : Except ApiError (Option TGWConnect)
  gatewayResp : Except ApiError TransitGateway
  attachmentResp : Except ApiError (Option TGWAttachment)
  assocResp : Except ApiError (Option Unit)
  propResp : Except ApiError (Option Unit)
deriving Repr

/-- resourceTransitGatewayConnectRead: the attachment not-found error class,
a nil describe result, and a reported state of deleting or deleted all clear
the recorded identifier and return nil; other describe errors surface;
otherwise the gateway and attachment are described (a nil attachment also
clears the identifier), the route-table association and propagation are read
only for non-shared gateways (defaulting to present otherwise), and the
attributes are recorded. -/
def resourceTransitGatewayConnectRead (env : TGWConnectReadEnv)
    (st : TGWConnectState) :
    Except String Unit × TGWConnectState × List ApiCall :=
  let c1 := [ApiCall.mk "DescribeTransitGatewayConnect" CallKind.read]
  match env.connectResp with
  | Except.error e =>
    if errMessageContains e invalidAttachmentNotFoundCode then
      (Except.ok (), { st with id := "" }, c1)
    else
      (Except.error ("error reading EC2 Transit Gateway Connect Attachment: "
          ++ e.message), st, c1)
  | Except.ok none => (Except.ok (), { st with id := "" }, c1)
  | Except.ok (some connect) =>
    if connect.state == transitGatewayAttachmentStateDeleting
        || connect.state == transitGatewayAttachmentStateDeleted then
      (Except.ok (), { st with id := "" }, c1)
    else
      let c2 := c1 ++ [ApiCall.mk "DescribeTransitGateway" CallKind.read]
      match env.gatewayResp with
      | Except.error e =>
        (Except.error ("error describing EC2 Transit Gateway: " ++ e.message),
          st, c2)
      | Except.ok gw =>
        let c3 := c2
          ++ [ApiCall.mk "DescribeTransitGatewayAttachment" CallKind.read]
        match env.attachmentResp with
        | Except.error e =>
          (Except.error ("error reading EC2 Transit Gateway Attachment: "
              ++ e.message), st, c3)
        | Except.ok none => (Except.ok (), { st with id := "" }, c3)
        | Except.ok (some attachment) =>
          if gw.ownerId == attachment.resourceOwnerId then
            let c4 := c3 ++ [ApiCall.mk
              "DescribeTransitGatewayRouteTableAssociation" CallKind.read]
            match env.assocResp with
            | Except.error e =>
              (Except.error ("error determining EC2 Transit Gateway Attachment "
                  ++ "association: " ++ e.message), st, c4)
            | Except.ok assoc =>
              let c5 := c4 ++ [ApiCall.mk
                "FindTransitGatewayRouteTablePropagation" CallKind.read]
              match env.propResp with
              | Except.error e =>
                (Except.error ("error determining EC2 Transit Gateway "
                    ++ "Attachment propagation: " ++ e.message), st, c5)
              | Except.ok prop =>
                (Except.ok (),
                  { st with
                    tags := connect.tags
                    defaultRouteTableAssociation := assoc.isSome
                    defaultRouteTablePropagation := prop.isSome
                    transitGatewayId := connect.transitGatewayId
                    transportAttachmentId := connect.transportAttachmentId },
                  c5)
          else
            (Except.ok (),
              { st with
                tags := connect.tags
                defaultRouteTableAssociation := true
                defaultRouteTablePropagation := true
                transitGatewayId := connect.transitGatewayId
                transportAttachmentId := connect.transportAttachmentId },
              c3)

/-- resourceTransitGatewayConnectDelete: issue the single mutating delete
call; an error of the attachment not-found class is success without polling;
any other error surfaces; otherwise delegate to the attachment deletion
wait. -/
def resourceTransitGatewayConnectDelete (delResp : Except ApiError Unit)
    (waitTrace : List (Refresh Unit)) (attachmentId : String) :
    Except String Unit × List ApiCall :=
  let delCall := [ApiCall.mk "DeleteTransitGatewayConnect" CallKind.mutate]
  match delResp with
  | Except.error e =>
    if errMessageContains e invalidAttachmentNotFoundCode then
      (Except.ok (), delCall)
    else
      (Except.error ("error deleting EC2 Transit Gateway Connect Attachment: "
          ++ e.message), delCall)
  | Except.ok _ =>
    let pollCall := ApiCall.mk "WaitForTransitGatewayAttachmentDeletion"
      CallKind.poll
    match WaitForTransitGatewayAttachmentDeletion waitTrace with
    | Except.ok _ => (Except.ok (), delCall ++ [pollCall])
    | Except.error m =>
      (Except.error ("error waiting for EC2 Transit Gateway Connect Attachment ("
          ++ attachmentId ++ ") deletion: " ++ m), delCall ++ [pollCall])

/-- Whether an Except value is a success. -/
def exceptIsOk : Except ε α → Bool
  | Except.ok _ => true
  | Except.error _ => false

/-- Whether a poll outcome is a success. -/
def pollIsSuccess : PollOutcome V → Bool
  | PollOutcome.success _ _ => true
  | PollOutcome.failure _ => false

theorem waitForStateAux_target_run (spec : PollSpec) (v : V) (t : String)
    (ht : t ∈ spec.target) :
    ∀ (k cnt : Nat), cnt + k < spec.continuousTarget →
      ∀ rest : List (Refresh V),
        waitForStateAux spec (List.replicate k (Refresh.ok v t) ++ rest) cnt
          = waitForStateAux spec rest (cnt + k) := by
  intro k
  induction k with
  | zero => intro cnt _ rest; simp
  | succ n ih =>
    intro cnt hlt rest
    have hnot : ¬ spec.continuousTarget ≤ cnt + 1 := by omega
    have hstep : waitForStateAux spec
        (List.replicate (n + 1) (Refresh.ok v t) ++ rest) cnt
        = waitForStateAux spec (List.replicate n (Refresh.ok v t) ++ rest)
            (cnt + 1) := by
      rw [List.replicate_succ, List.cons_append]
      simp [waitForStateAux, ht, hnot]
    rw [hstep, ih (cnt + 1) (by omega) rest]
    congr 1
    omega

theorem waitForStateAux_target_success (spec : PollSpec) (v : V) (t : String)
    (ht : t ∈ spec.target) :
    ∀ (k cnt : Nat), spec.continuousTarget ≤ cnt + k →
      cnt < spec.continuousTarget →
      ∀ rest : List (Refresh V),
        (waitForStateAux spec (List.replicate k (Refresh.ok v t) ++ rest)
            cnt).fst
          = PollOutcome.success v t := by
  intro k
  induction k with
  | zero => intro cnt h1 h2 rest; omega
  | succ n ih =>
    intro cnt h1 h2 rest
    by_cases hc : spec.continuousTarget ≤ cnt + 1
    · rw [List.replicate_succ, List.cons_append]
      simp [waitForStateAux, ht, hc]
    · rw [List.replicate_succ, List.cons_append]
      have hstep : waitForStateAux spec
          (Refresh.ok v t :: (List.replicate n (Refresh.ok v t) ++ rest)) cnt
          = waitForStateAux spec (List.replicate n (Refresh.ok v t) ++ rest)
              (cnt + 1) := by
        simp [waitForStateAux, ht, hc]
      rw [hstep]
      exact ih (cnt + 1) (by omega) (by omega) rest

theorem waitForStateAux_pending_step (spec : PollSpec) (v : V) (p : String)
    (hp : p ∈ spec.pending ∨ spec.pending = []) (hpt : p ∉ spec.target)
    (rest : List (Refresh V)) (cnt : Nat) :
    waitForStateAux spec (Refresh.ok v p :: rest) cnt
      = waitForStateAux spec rest 0 := by
  simp [waitForStateAux, hp, hpt]

/-- C6: with continuousTargetOccurrences = N, a run of fewer than N target
observations followed by a pending observation and then further target
observations succeeds exactly when the fresh run reaches N consecutive
target observations: the pending read resets the counter.  waitQueueDeleted
instantiates the poller with three required consecutive target observations
and the queue existence token as the only pending state. -/
theorem poll_continuous_target_occurrences (N a b : Nat) (p t : String)
    (v : V) (hN : 1 ≤ N) (ha : a < N) (hpt : p ≠ t) :
    (((waitForState { pending := [p], target := [t], continuousTarget := N }
        (List.replicate a (Refresh.ok v t)
          ++ Refresh.ok v p :: List.replicate b (Refresh.ok v t))).fst
      = PollOutcome.success v t) ↔ N ≤ b)
    ∧ waitQueueDeletedConf.continuousTarget = 3
    ∧ waitQueueDeletedConf.pending = [queueStateExists] := by
  refine ⟨?_, rfl, rfl⟩
  have hct : ({ pending := [p], target := [t], continuousTarget := N }
      : PollSpec).continuousTarget = N := rfl
  have ht : t ∈ ({ pending := [p], target := [t], continuousTarget := N }
      : PollSpec).target := by simp
  have hp : p ∈ ({ pending := [p], target := [t], continuousTarget := N }
      : PollSpec).pending
      ∨ ({ pending := [p], target := [t], continuousTarget := N }
        : PollSpec).pending = [] := Or.inl (by simp)
  have hptc : p ∉ ({ pending := [p], target := [t], continuousTarget := N }
      : PollSpec).target := by simp [hpt]
  rw [waitForState,
    waitForStateAux_target_run _ v t ht a 0 (by rw [hct]; omega),
    waitForStateAux_pending_step _ v p hp hptc]
  constructor
  · intro hsucc
    by_contra hb
    rw [show List.replicate b (Refresh.ok v t)
        = List.replicate b (Refresh.ok v t) ++ ([] : List (Refresh V))
      from (List.append_nil _).symm,
      waitForStateAux_target_run _ v t ht b 0 (by rw [hct]; omega)] at hsucc
    simp [waitForStateAux] at hsucc
  · intro hb
    have := waitForStateAux_target_success _ v t ht b 0
      (by rw [hct]; omega) (by rw [hct]; omega) []
    simpa using this

/-- Witness for C6 at N = 2, a = 1, b = 2. -/
theorem poll_continuous_target_occurrences_witness :
    (1 : Nat) ≤ 2 ∧ (1 : Nat) < 2
    ∧ ((((waitForState
        { pending := ["p"], target := ["t"], continuousTarget := 2 }
        (List.replicate 1 (Refresh.ok () "t")
          ++ Refresh.ok () "p" :: List.replicate 2 (Refresh.ok () "t"))).fst
      = PollOutcome.success () "t") ↔ (2 : Nat) ≤ 2)
    ∧ waitQueueDeletedConf.continuousTarget = 3
    ∧ waitQueueDeletedConf.pending = [queueStateExists]) :=
  ⟨by decide, by decide,
    poll_continuous_target_occurrences 2 1 2 "p" "t" () (by decide) (by decide)
      (by decide)⟩

/-- C7: a refresh observation whose status token is in neither the pending
set nor the target set makes the poller abort at once with an
unexpected-state failure carrying that token, leaving the remaining
observations unconsumed (no further refresh calls), after any run of
pending-classified observations. -/
theorem poll_unexpected_state_aborts (spec : PollSpec) (v : V) (s : String)
    (pre post : List (Refresh V))
    (hpre : ∀ o ∈ pre, ∃ w q, o = Refresh.ok w q
      ∧ q ∈ spec.pending ∧ q ∉ spec.target)
    (hs1 : s ∉ spec.target) (hs2 : s ∉ spec.pending)
    (hne : spec.pending ≠ []) :
    waitForState spec (pre ++ Refresh.ok v s :: post)
      = (PollOutcome.failure (PollFailure.unexpected s), post) := by
  rw [waitForState]
  induction pre with
  | nil =>
    simp [waitForStateAux, hs1, hs2, hne]
  | cons o rest ih =>
    obtain ⟨w, q, rfl, hq1, hq2⟩ := hpre o (by simp)
    rw [List.cons_append,
      waitForStateAux_pending_step spec w q (Or.inl hq1) hq2]
    exact ih (fun o ho => hpre o (by simp [ho]))

/-- Witness for C7 with the PollSpec of the VPC CIDR association create
wait, one pending observation and an unexpected failing token. -/
theorem poll_unexpected_state_aborts_witness :
    vpcAssociationCreateConf.pending ≠ []
    ∧ waitForState vpcAssociationCreateConf
        ([Refresh.ok (none : Option CidrAssoc) vpcCidrBlockStateCodeAssociating]
          ++ Refresh.ok none "failing"
            :: [Refresh.ok none vpcCidrBlockStateCodeAssociated])
      = (PollOutcome.failure (PollFailure.unexpected "failing"),
          [Refresh.ok none vpcCidrBlockStateCodeAssociated]) :=
  ⟨by simp [vpcAssociationCreateConf],
    poll_unexpected_state_aborts vpcAssociationCreateConf none "failing" _ _
      (by intro o ho
          refine ⟨none, vpcCidrBlockStateCodeAssociating, ?_, by simp
            [vpcAssociationCreateConf, vpcCidrBlockStateCodeAssociating], by simp
            [vpcAssociationCreateConf, vpcCidrBlockStateCodeAssociating,
              vpcCidrBlockStateCodeAssociated]⟩
          simpa using ho)
      (by simp [vpcAssociationCreateConf, vpcCidrBlockStateCodeAssociated])
      (by simp [vpcAssociationCreateConf, vpcCidrBlockStateCodeAssociating])
      (by simp [vpcAssociationCreateConf])⟩

/-- C1: evaluating the domain-policy upsert wait on a run in which the
domain reports Processing through the whole retry window and on the
post-timeout describe: the function returns success (it falls through to
the delegated read because the post-timeout describe overwrites the
timeout error), where the claim requires an error.  The delete wait of the
same file, which shadows instead of overwriting, returns an error on the
same observations. -/
theorem domainPolicyUpsert_timeout_returns_success :
    resourceDomainPolicyUpsertWait [Except.ok true] (Except.ok true)
        (Except.ok ())
      = Except.ok ()
    ∧ exceptIsOk (resourceDomainPolicyDeleteWait [Except.ok true]
        (Except.ok true)) = false
    ∧ exceptIsOk (waitQueueAttributesPropagated
        (fun _ _ => Except.ok false) (fun g e => g == e)
        [(queueAttributeNamePolicy, "policy-doc")]
        [Except.ok []] (Except.ok [])) = false := by
  exact ⟨rfl, rfl, rfl⟩

/-- C2 counterexample: a create run whose associate call succeeds with a
concrete association id and whose wait exhausts the window while the
association is still associating ends in an error with the identifier
recorded in state, not unset. -/
theorem vpcCidrCreate_pollFailure_id_recorded_counterexample :
    (resourceVPCIPv4CIDRBlockAssociationCreate
        ⟨Except.ok ("vpc-cidr-assoc-123"),
          [Except.ok (some ⟨("vpc-1"),
            [⟨("vpc-cidr-assoc-123"), ("10.1.0.0/16"),
              vpcCidrBlockStateCodeAssociating⟩]⟩)],
          Except.ok []⟩
        ⟨(""), ("vpc-1"), ("")⟩).2.1.id = "vpc-cidr-assoc-123"
    ∧ exceptIsOk (resourceVPCIPv4CIDRBlockAssociationCreate
        ⟨Except.ok ("vpc-cidr-assoc-123"),
          [Except.ok (some ⟨("vpc-1"),
            [⟨("vpc-cidr-assoc-123"), ("10.1.0.0/16"),
              vpcCidrBlockStateCodeAssociating⟩]⟩)],
          Except.ok []⟩
        ⟨(""), ("vpc-1"), ("")⟩).1 = false
    ∧ ("vpc-cidr-assoc-123" : String) ≠ "" := by
  refine ⟨rfl, rfl, by decide⟩

/-- C2 amended: when the initial mutating call succeeds and the poller then
fails, a create orchestrator returns an error with the provider-assigned
identifier already recorded in local state (it is set before the wait),
rather than with the identifier unset; this holds for both the VPC CIDR
association create and the transit gateway connect create. -/
theorem create_pollFailure_leaves_id_recorded (env : VpcCidrCreateEnv)
    (st : VpcCidrState) (aid : String) (env2 : TGWConnectCreateEnv)
    (af pf : Bool) (aid2 : String)
    (hassoc : env.associateResp = Except.ok aid)
    (hfail : pollIsSuccess (waitForState vpcAssociationCreateConf
      (env.refreshResps.map
        (vpcIpv4CidrBlockAssociationStateRefresh aid))).fst = false)
    (hcr : env2.createResp = Except.ok aid2)
    (hfail2 : exceptIsOk
      (waitForTransitGatewayAttachmentCreation env2.waitTrace) = false) :
    exceptIsOk (resourceVPCIPv4CIDRBlockAssociationCreate env st).1 = false
    ∧ (resourceVPCIPv4CIDRBlockAssociationCreate env st).2.1.id = aid
    ∧ exceptIsOk (resourceTransitGatewayConnectCreate env2 af pf).1 = false
    ∧ (resourceTransitGatewayConnectCreate env2 af pf).2.1 = aid2 := by
  have hvpc : exceptIsOk (resourceVPCIPv4CIDRBlockAssociationCreate env st).1
        = false
      ∧ (resourceVPCIPv4CIDRBlockAssociationCreate env st).2.1.id = aid := by
    simp only [resourceVPCIPv4CIDRBlockAssociationCreate, hassoc]
    cases hw : (waitForState vpcAssociationCreateConf
        (List.map (vpcIpv4CidrBlockAssociationStateRefresh aid)
          env.refreshResps)).fst with
    | success v s =>
      rw [show env.refreshResps.map (vpcIpv4CidrBlockAssociationStateRefresh aid)
          = List.map (vpcIpv4CidrBlockAssociationStateRefresh aid)
            env.refreshResps from rfl, hw] at hfail
      simp [pollIsSuccess] at hfail
    | failure k => simp [exceptIsOk]
  have htgw : exceptIsOk (resourceTransitGatewayConnectCreate env2 af pf).1
        = false
      ∧ (resourceTransitGatewayConnectCreate env2 af pf).2.1 = aid2 := by
    simp only [resourceTransitGatewayConnectCreate, hcr]
    cases hwc : waitForTransitGatewayAttachmentCreation env2.waitTrace with
    | ok u =>
      rw [hwc] at hfail2
      simp [exceptIsOk] at hfail2
    | error m => simp [exceptIsOk]
  exact ⟨hvpc.1, hvpc.2, htgw.1, htgw.2⟩

/-- Witness for the amended C2 statement: associate succeeds and the wait
trace is empty (the window elapses with no observation), for both creates. -/
theorem create_pollFailure_leaves_id_recorded_witness :
    exceptIsOk (resourceVPCIPv4CIDRBlockAssociationCreate
        ⟨Except.ok ("vpc-cidr-assoc-9"), [], Except.ok []⟩
        ⟨(""), ("vpc-9"), ("")⟩).1 = false
    ∧ (resourceVPCIPv4CIDRBlockAssociationCreate
        ⟨Except.ok ("vpc-cidr-assoc-9"), [], Except.ok []⟩
        ⟨(""), ("vpc-9"), ("")⟩).2.1.id = "vpc-cidr-assoc-9"
    ∧ exceptIsOk (resourceTransitGatewayConnectCreate
        ⟨Except.ok ("tgw-attach-9"), [], Except.ok ⟨("1"), ("tgw-9")⟩,
          Except.ok ⟨("1"), none⟩, none, none, Except.ok (), Except.ok (),
          Except.ok ()⟩ true true).1 = false
    ∧ (resourceTransitGatewayConnectCreate
        ⟨Except.ok ("tgw-attach-9"), [], Except.ok ⟨("1"), ("tgw-9")⟩,
          Except.ok ⟨("1"), none⟩, none, none, Except.ok (), Except.ok (),
          Except.ok ()⟩ true true).2.1 = "tgw-attach-9" :=
  create_pollFailure_leaves_id_recorded
    ⟨Except.ok ("vpc-cidr-assoc-9"), [], Except.ok []⟩
    ⟨(""), ("vpc-9"), ("")⟩ ("vpc-cidr-assoc-9")
    ⟨Except.ok ("tgw-attach-9"), [], Except.ok ⟨("1"), ("tgw-9")⟩,
      Except.ok ⟨("1"), none⟩, none, none, Except.ok (), Except.ok (),
      Except.ok ()⟩ true true ("tgw-attach-9")
    rfl rfl rfl rfl

/-- C3 counterexample: a transit gateway connect create run against a
non-shared gateway needing both route-table updates issues three mutating
API calls (the create plus the association and propagation mutations), not
exactly one. -/
theorem tgwConnectCreate_three_mutations_counterexample :
    countMutating (resourceTransitGatewayConnectCreate
        ⟨Except.ok ("tgw-attach-123"),
          [Refresh.ok () transitGatewayConnectPeerStateAvailable],
          Except.ok ⟨("111122223333"), ("tgw-123")⟩,
          Except.ok ⟨("111122223333"),
            some ⟨("tgw-rtb-assoc"), ("tgw-rtb-prop")⟩⟩,
          none, none, Except.ok (), Except.ok (), Except.ok ()⟩
        true true).2.2 = 3
    ∧ countMutating (resourceTransitGatewayConnectCreate
        ⟨Except.ok ("tgw-attach-123"),
          [Refresh.ok () transitGatewayConnectPeerStateAvailable],
          Except.ok ⟨("111122223333"), ("tgw-123")⟩,
          Except.ok ⟨("111122223333"),
            some ⟨("tgw-rtb-assoc"), ("tgw-rtb-prop")⟩⟩,
          none, none, Except.ok (), Except.ok (), Except.ok ()⟩
        true true).2.2 ≠ 1 := by
  refine ⟨rfl, by decide⟩

/-- C3 amended: each create orchestrator issues exactly one mutating API
call before delegating to the convergence poller; the VPC CIDR association
create issues exactly one mutating call in total, while the transit gateway
connect create may issue further route-table mutating calls only after the
poller has succeeded. -/
theorem orchestrator_one_mutation_before_poll (env : TGWConnectCreateEnv)
    (af pf : Bool) (env2 : VpcCidrCreateEnv) (st : VpcCidrState) :
    countMutating (callsBeforePoll
        (resourceTransitGatewayConnectCreate env af pf).2.2) = 1
    ∧ countMutating (callsBeforePoll
        (resourceVPCIPv4CIDRBlockAssociationCreate env2 st).2.2) = 1
    ∧ countMutating (resourceVPCIPv4CIDRBlockAssociationCreate env2 st).2.2
      = 1 := by
  refine ⟨?_, ?_, ?_⟩
  · rcases env with ⟨cr, wt, tr, gr, ac, pc, amr, pmr, rr⟩
    cases cr with
    | error e =>
      simp [resourceTransitGatewayConnectCreate, callsBeforePoll,
        countMutating]
    | ok attachmentId =>
      simp only [resourceTransitGatewayConnectCreate]
      cases waitForTransitGatewayAttachmentCreation wt with
      | error m => simp [callsBeforePoll, countMutating]
      | ok u =>
        cases tr with
        | error e => simp [callsBeforePoll, countMutating]
        | ok transport =>
          cases gr with
          | error e => simp [callsBeforePoll, countMutating]
          | ok gw =>
            cases hopt : gw.options with
            | none => simp [hopt, callsBeforePoll, countMutating]
            | some o =>
              by_cases hown : (gw.ownerId == transport.resourceOwnerId) = true
              · cases hr1 : (transitGatewayRouteTableAssociationUpdate ac af
                    amr).fst with
                | error e =>
                  simp [hopt, hown, hr1, callsBeforePoll, countMutating]
                | ok u1 =>
                  cases hr2 : (transitGatewayRouteTablePropagationUpdate pc pf
                      pmr).fst with
                  | error e =>
                    simp [hopt, hown, hr1, hr2, callsBeforePoll, countMutating]
                  | ok u2 =>
                    simp [hopt, hown, hr1, hr2, callsBeforePoll, countMutating]
              · simp only [Bool.not_eq_true] at hown
                simp [hopt, hown, callsBeforePoll, countMutating]
  · rcases env2 with ⟨ar, rr, rd⟩
    cases ar with
    | error e =>
      simp [resourceVPCIPv4CIDRBlockAssociationCreate, callsBeforePoll,
        countMutating]
    | ok aid =>
      simp only [resourceVPCIPv4CIDRBlockAssociationCreate]
      cases (waitForState vpcAssociationCreateConf
          (List.map (vpcIpv4CidrBlockAssociationStateRefresh aid) rr)).fst with
      | success v s => simp [callsBeforePoll, countMutating]
      | failure k => simp [callsBeforePoll, countMutating]
  · rcases env2 with ⟨ar, rr, rd⟩
    cases ar with
    | error e =>
      simp [resourceVPCIPv4CIDRBlockAssociationCreate, countMutating]
    | ok aid =>
      simp only [resourceVPCIPv4CIDRBlockAssociationCreate]
      cases (waitForState vpcAssociationCreateConf
          (List.map (vpcIpv4CidrBlockAssociationStateRefresh aid) rr)).fst with
      | failure k => simp [countMutating]
      | success v s =>
        cases rd with
        | error e => simp [resourceVPCIPv4CIDRBlockAssociationRead, countMutating]
        | ok vpcs =>
          cases vpcs with
          | nil => simp [resourceVPCIPv4CIDRBlockAssociationRead, countMutating]
          | cons v0 rest =>
            cases v0 with
            | none =>
              simp [resourceVPCIPv4CIDRBlockAssociationRead, countMutating]
            | some vpc =>
              cases hf : vpc.cidrBlockAssociationSet.find?
                  (fun a => a.associationId == aid) with
              | none =>
                simp [resourceVPCIPv4CIDRBlockAssociationRead, hf,
                  countMutating]
              | some a =>
                simp [resourceVPCIPv4CIDRBlockAssociationRead, hf,
                  countMutating]

/-- C4: when the mutating delete call reports the not-found error class the
delete orchestrators return success at once, with a call log holding only
the delete call itself (no polling); two invocations on an already-absent
object (two not-found responses) both succeed. -/
theorem delete_notFound_idempotent (e1 e2 e3 e4 : ApiError)
    (tr1 tr2 : List (Except ApiError (Option Vpc))) (st1 st2 : VpcCidrState)
    (wt1 wt2 : List (Refresh Unit)) (id1 id2 : String)
    (h1 : e1.code = invalidVpcNotFoundCode)
    (h2 : e2.code = invalidVpcNotFoundCode)
    (h3 : e3.code = invalidAttachmentNotFoundCode)
    (h4 : e4.code = invalidAttachmentNotFoundCode) :
    resourceVPCIPv4CIDRBlockAssociationDelete (Except.error e1) tr1 st1
      = (Except.ok (), [⟨("DisassociateVpcCidrBlock"), CallKind.mutate⟩])
    ∧ resourceVPCIPv4CIDRBlockAssociationDelete (Except.error e2) tr2 st2
      = (Except.ok (), [⟨("DisassociateVpcCidrBlock"), CallKind.mutate⟩])
    ∧ resourceTransitGatewayConnectDelete (Except.error e3) wt1 id1
      = (Except.ok (), [⟨("DeleteTransitGatewayConnect"), CallKind.mutate⟩])
    ∧ resourceTransitGatewayConnectDelete (Except.error e4) wt2 id2
      = (Except.ok (), [⟨("DeleteTransitGatewayConnect"), CallKind.mutate⟩]) := by
  refine ⟨?_, ?_, ?_, ?_⟩ <;>
    simp [resourceVPCIPv4CIDRBlockAssociationDelete,
      resourceTransitGatewayConnectDelete, errMessageContains, h1, h2, h3, h4]

/-- Witness for C4 at concrete not-found errors and empty wait traces. -/
theorem delete_notFound_idempotent_witness :
    resourceVPCIPv4CIDRBlockAssociationDelete
        (Except.error ⟨invalidVpcNotFoundCode, ("gone")⟩) []
        ⟨("assoc-1"), ("vpc-1"), ("")⟩
      = (Except.ok (), [⟨("DisassociateVpcCidrBlock"), CallKind.mutate⟩])
    ∧ resourceVPCIPv4CIDRBlockAssociationDelete
        (Except.error ⟨invalidVpcNotFoundCode, ("gone")⟩) []
        ⟨("assoc-1"), ("vpc-1"), ("")⟩
      = (Except.ok (), [⟨("DisassociateVpcCidrBlock"), CallKind.mutate⟩])
    ∧ resourceTransitGatewayConnectDelete
        (Except.error ⟨invalidAttachmentNotFoundCode, ("gone")⟩) []
        ("tgw-attach-1")
      = (Except.ok (), [⟨("DeleteTransitGatewayConnect"), CallKind.mutate⟩])
    ∧ resourceTransitGatewayConnectDelete
        (Except.error ⟨invalidAttachmentNotFoundCode, ("gone")⟩) []
        ("tgw-attach-1")
      = (Except.ok (), [⟨("DeleteTransitGatewayConnect"), CallKind.mutate⟩]) :=
  delete_notFound_idempotent
    ⟨invalidVpcNotFoundCode, ("gone")⟩ ⟨invalidVpcNotFoundCode, ("gone")⟩
    ⟨invalidAttachmentNotFoundCode, ("gone")⟩
    ⟨invalidAttachmentNotFoundCode, ("gone")⟩
    [] [] ⟨("assoc-1"), ("vpc-1"), ("")⟩ ⟨("assoc-1"), ("vpc-1"), ("")⟩
    [] [] ("tgw-attach-1") ("tgw-attach-1") rfl rfl rfl rfl

/-- C5: each state-refresh function reports the synthetic deleted token with
no error whenever the remote object cannot be found: a not-found error
class from the describe call, an empty or nil result, or a result that does
not contain the requested identifier; and a poll whose target set contains
the deleted token (one occurrence sufficing) succeeds on the first such
observation. -/
theorem refresh_absent_yields_deleted (pid aid vid : String)
    (e1 e2 : ApiError) (p : Peer) (a : CidrAssoc) (spec : PollSpec) (v : V)
    (h1 : e1.code = invalidConnectPeerNotFoundCode)
    (h2 : e2.code = invalidVpcNotFoundCode)
    (hp : p.peerId ≠ pid) (ha : a.associationId ≠ aid)
    (hs : VpcCidrBlockStateCodeDeleted ∈ spec.target)
    (hn : spec.continuousTarget = 1) :
    transitGatewayConnectPeerRefreshFunc pid [Except.error e1]
      = Refresh.ok none transitGatewayConnectPeerStateDeleted
    ∧ transitGatewayConnectPeerRefreshFunc pid [Except.ok none]
      = Refresh.ok none transitGatewayConnectPeerStateDeleted
    ∧ transitGatewayConnectPeerRefreshFunc pid [Except.ok (some ⟨[], ("")⟩)]
      = Refresh.ok none transitGatewayConnectPeerStateDeleted
    ∧ transitGatewayConnectPeerRefreshFunc pid
        [Except.ok (some ⟨[some p], ("")⟩)]
      = Refresh.ok none transitGatewayConnectPeerStateDeleted
    ∧ vpcIpv4CidrBlockAssociationStateRefresh aid (Except.error e2)
      = Refresh.ok none VpcCidrBlockStateCodeDeleted
    ∧ vpcIpv4CidrBlockAssociationStateRefresh aid (Except.ok none)
      = Refresh.ok none VpcCidrBlockStateCodeDeleted
    ∧ vpcIpv4CidrBlockAssociationStateRefresh aid (Except.ok (some ⟨vid, [a]⟩))
      = Refresh.ok none VpcCidrBlockStateCodeDeleted
    ∧ (waitForState spec [Refresh.ok v VpcCidrBlockStateCodeDeleted]).fst
      = PollOutcome.success v VpcCidrBlockStateCodeDeleted := by
  refine ⟨?_, ?_, ?_, ?_, ?_, ?_, ?_, ?_⟩
  · simp [transitGatewayConnectPeerRefreshFunc,
      DescribeTransitGatewayConnectPeer, errMessageContains, h1]
  · simp [transitGatewayConnectPeerRefreshFunc,
      DescribeTransitGatewayConnectPeer]
  · simp [transitGatewayConnectPeerRefreshFunc,
      DescribeTransitGatewayConnectPeer]
  · simp [transitGatewayConnectPeerRefreshFunc,
      DescribeTransitGatewayConnectPeer, hp]
  · simp [vpcIpv4CidrBlockAssociationStateRefresh, vpcDescribe,
      errMessageContains, h2]
  · simp [vpcIpv4CidrBlockAssociationStateRefresh, vpcDescribe]
  · have hb : (a.associationId == aid) = false := by simp [ha]
    simp [vpcIpv4CidrBlockAssociationStateRefresh, vpcDescribe,
      List.find?, hb]
  · simp [waitForState, waitForStateAux, hs, hn]

/-- Witness for C5 at concrete identifiers, errors and the VPC CIDR
association delete PollSpec. -/
theorem refresh_absent_yields_deleted_witness :
    transitGatewayConnectPeerRefreshFunc ("peer-1")
        [Except.error ⟨invalidConnectPeerNotFoundCode, ("gone")⟩]
      = Refresh.ok none transitGatewayConnectPeerStateDeleted
    ∧ transitGatewayConnectPeerRefreshFunc ("peer-1") [Except.ok none]
      = Refresh.ok none transitGatewayConnectPeerStateDeleted
    ∧ transitGatewayConnectPeerRefreshFunc ("peer-1")
        [Except.ok (some ⟨[], ("")⟩)]
      = Refresh.ok none transitGatewayConnectPeerStateDeleted
    ∧ transitGatewayConnectPeerRefreshFunc ("peer-1")
        [Except.ok (some ⟨[some ⟨("peer-2"), ("available")⟩], ("")⟩)]
      = Refresh.ok none transitGatewayConnectPeerStateDeleted
    ∧ vpcIpv4CidrBlockAssociationStateRefresh ("assoc-1")
        (Except.error ⟨invalidVpcNotFoundCode, ("gone")⟩)
      = Refresh.ok none VpcCidrBlockStateCodeDeleted
    ∧ vpcIpv4CidrBlockAssociationStateRefresh ("assoc-1") (Except.ok none)
      = Refresh.ok none VpcCidrBlockStateCodeDeleted
    ∧ vpcIpv4CidrBlockAssociationStateRefresh ("assoc-1")
        (Except.ok (some ⟨("vpc-1"),
          [⟨("assoc-2"), ("10.2.0.0/16"), ("associated")⟩]⟩))
      = Refresh.ok none VpcCidrBlockStateCodeDeleted
    ∧ (waitForState vpcAssociationDeleteConf
        [Refresh.ok (none : Option CidrAssoc)
          VpcCidrBlockStateCodeDeleted]).fst
      = PollOutcome.success none VpcCidrBlockStateCodeDeleted :=
  refresh_absent_yields_deleted ("peer-1") ("assoc-1") ("vpc-1")
    ⟨invalidConnectPeerNotFoundCode, ("gone")⟩
    ⟨invalidVpcNotFoundCode, ("gone")⟩
    ⟨("peer-2"), ("available")⟩ ⟨("assoc-2"), ("10.2.0.0/16"), ("associated")⟩
    vpcAssociationDeleteConf none
    rfl rfl (by decide) (by decide)
    (by simp [vpcAssociationDeleteConf]) rfl

/-- C8: a read whose describe call succeeds but returns an empty result
set, a nil first entry, a result lacking the requested identifier, or a nil
connect attachment, clears the recorded identifier and returns nil (never
an error). -/
theorem read_empty_result_clears_id (st : VpcCidrState)
    (l : List (Option Vpc)) (vpc : Vpc) (env : TGWConnectReadEnv)
    (st2 : TGWConnectState)
    (hfind : vpc.cidrBlockAssociationSet.find?
      (fun a => a.associationId == st.id) = none)
    (hconn : env.connectResp = Except.ok none) :
    (resourceVPCIPv4CIDRBlockAssociationRead (Except.ok []) st).1
        = Except.ok ()
    ∧ (resourceVPCIPv4CIDRBlockAssociationRead (Except.ok []) st).2.1.id = ""
    ∧ (resourceVPCIPv4CIDRBlockAssociationRead (Except.ok (none :: l)) st).1
      = Except.ok ()
    ∧ (resourceVPCIPv4CIDRBlockAssociationRead
        (Except.ok (none :: l)) st).2.1.id = ""
    ∧ (resourceVPCIPv4CIDRBlockAssociationRead
        (Except.ok (some vpc :: l)) st).1 = Except.ok ()
    ∧ (resourceVPCIPv4CIDRBlockAssociationRead
        (Except.ok (some vpc :: l)) st).2.1.id = ""
    ∧ (resourceTransitGatewayConnectRead env st2).1 = Except.ok ()
    ∧ (resourceTransitGatewayConnectRead env st2).2.1.id = "" := by
  refine ⟨rfl, rfl, rfl, rfl, ?_, ?_, ?_, ?_⟩
  · simp [resourceVPCIPv4CIDRBlockAssociationRead, hfind]
  · simp [resourceVPCIPv4CIDRBlockAssociationRead, hfind]
  · simp [resourceTransitGatewayConnectRead, hconn]
  · simp [resourceTransitGatewayConnectRead, hconn]

/-- Witness for C8 at a concrete VPC lacking the recorded identifier and a
nil connect describe result. -/
theorem read_empty_result_clears_id_witness :
    (resourceVPCIPv4CIDRBlockAssociationRead (Except.ok [])
        ⟨("assoc-1"), ("vpc-1"), ("")⟩).1 = Except.ok ()
    ∧ (resourceVPCIPv4CIDRBlockAssociationRead (Except.ok [])
        ⟨("assoc-1"), ("vpc-1"), ("")⟩).2.1.id = ""
    ∧ (resourceVPCIPv4CIDRBlockAssociationRead (Except.ok (none :: []))
        ⟨("assoc-1"), ("vpc-1"), ("")⟩).1 = Except.ok ()
    ∧ (resourceVPCIPv4CIDRBlockAssociationRead (Except.ok (none :: []))
        ⟨("assoc-1"), ("vpc-1"), ("")⟩).2.1.id = ""
    ∧ (resourceVPCIPv4CIDRBlockAssociationRead
        (Except.ok (some ⟨("vpc-1"),
          [⟨("assoc-2"), ("10.2.0.0/16"), ("associated")⟩]⟩ :: []))
        ⟨("assoc-1"), ("vpc-1"), ("")⟩).1 = Except.ok ()
    ∧ (resourceVPCIPv4CIDRBlockAssociationRead
        (Except.ok (some ⟨("vpc-1"),
          [⟨("assoc-2"), ("10.2.0.0/16"), ("associated")⟩]⟩ :: []))
        ⟨("assoc-1"), ("vpc-1"), ("")⟩).2.1.id = ""
    ∧ (resourceTransitGatewayConnectRead
        ⟨Except.ok none, Except.ok ⟨("1"), none⟩, Except.ok none,
          Except.ok none, Except.ok none⟩
        ⟨("tgw-attach-1"), [], true, true, (""), ("")⟩).1 = Except.ok ()
    ∧ (resourceTransitGatewayConnectRead
        ⟨Except.ok none, Except.ok ⟨("1"), none⟩, Except.ok none,
          Except.ok none, Except.ok none⟩
        ⟨("tgw-attach-1"), [], true, true, (""), ("")⟩).2.1.id = "" :=
  read_empty_result_clears_id ⟨("assoc-1"), ("vpc-1"), ("")⟩ []
    ⟨("vpc-1"), [⟨("assoc-2"), ("10.2.0.0/16"), ("associated")⟩]⟩
    ⟨Except.ok none, Except.ok ⟨("1"), none⟩, Except.ok none,
      Except.ok none, Except.ok none⟩
    ⟨("tgw-attach-1"), [], true, true, (""), ("")⟩
    (by decide) rfl

/-- C10: a connect attachment reported in the deleting or deleted state is
treated by the read exactly like an absent object: the identifier is
cleared, nil is returned, the remaining local attributes are untouched, and
no further describe calls (route tables, tags) are issued. -/
theorem tgwConnectRead_deleting_treated_absent (env : TGWConnectReadEnv)
    (st : TGWConnectState) (c : TGWConnect)
    (hconn : env.connectResp = Except.ok (some c))
    (hstate : c.state = transitGatewayAttachmentStateDeleting
      ∨ c.state = transitGatewayAttachmentStateDeleted) :
    resourceTransitGatewayConnectRead env st
      = (Except.ok (), { st with id := "" },
        [⟨("DescribeTransitGatewayConnect"), CallKind.read⟩]) := by
  have hb : (c.state == transitGatewayAttachmentStateDeleting
      || c.state == transitGatewayAttachmentStateDeleted) = true := by
    rcases hstate with h | h <;> simp [h]
  simp [resourceTransitGatewayConnectRead, hconn, hb]

/-- Witness for C10 at a concrete attachment in the deleting state. -/
theorem tgwConnectRead_deleting_treated_absent_witness :
    resourceTransitGatewayConnectRead
        ⟨Except.ok (some ⟨transitGatewayAttachmentStateDeleting, ("tgw-1"),
          ("tgw-attach-0"), []⟩),
          Except.ok ⟨("1"), none⟩, Except.ok none, Except.ok none,
          Except.ok none⟩
        ⟨("tgw-attach-1"), [((("k")), (("v")))], true, true, (""), ("")⟩
      = (Except.ok (),
        { (⟨("tgw-attach-1"), [((("k")), (("v")))], true, true, (""), ("")⟩
            : TGWConnectState) with id := "" },
        [⟨("DescribeTransitGatewayConnect"), CallKind.read⟩]) :=
  tgwConnectRead_deleting_treated_absent
    ⟨Except.ok (some ⟨transitGatewayAttachmentStateDeleting, ("tgw-1"),
      ("tgw-attach-0"), []⟩),
      Except.ok ⟨("1"), none⟩, Except.ok none, Except.ok none, Except.ok none⟩
    ⟨("tgw-attach-1"), [((("k")), (("v")))], true, true, (""), ("")⟩
    ⟨transitGatewayAttachmentStateDeleting, ("tgw-1"), ("tgw-attach-0"), []⟩
    rfl (Or.inl rfl)

theorem attributesMatch_ok_missing (pe : String → String → Except String Bool)
    (se : String → String → Bool) :
    ∀ (expected got : List (String × String)) (k e : String),
      (k, e) ∈ expected → got.lookup k = none →
      attributesMatch pe se expected got = Except.ok () →
      (e = "" ∨ (k = queueAttributeNameKmsDataKeyReusePeriodSeconds
        ∧ e = defaultKmsReuseStr)) := by
  intro expected
  induction expected with
  | nil => intro got k e hmem; cases hmem
  | cons hd rest ih =>
    intro got k e hmem hmiss hok
    rcases hd with ⟨k1, e1⟩
    rcases List.mem_cons.mp hmem with heq | hmem2
    · rw [Prod.mk.injEq] at heq
      obtain ⟨rfl, rfl⟩ := heq
      simp only [attributesMatch, hmiss] at hok
      split_ifs at hok with hb1 hb2
      · left; simpa using hb1
      · right; simpa using hb2
    · simp only [attributesMatch] at hok
      split at hok
      · split_ifs at hok <;>
          exact ih got k e hmem2 hmiss hok
      · split_ifs at hok <;>
          first
            | exact ih got k e hmem2 hmiss hok
            | simp at hok
            | (split at hok <;>
                first
                  | exact ih got k e hmem2 hmiss hok
                  | simp at hok)

/-- C9: in the attribute comparison of waitQueueAttributesPropagated, a key
missing from the fetched attribute map is accepted exactly when the
expected value is the empty string or the key is the KMS data-key
reuse-period attribute expected at its hardcoded default; any other missing
key with a non-empty expected value makes the comparison fail.  The first
conjunct states the necessity for a missing key inside any expected list
whose comparison succeeds; the second states the exact equivalence. -/
theorem attributesMatch_missing_key (pe : String → String → Except String Bool)
    (se : String → String → Bool) (expected got : List (String × String))
    (k e : String) (hmem : (k, e) ∈ expected)
    (hmiss : got.lookup k = none) :
    (attributesMatch pe se expected got = Except.ok () →
      (e = "" ∨ (k = queueAttributeNameKmsDataKeyReusePeriodSeconds
        ∧ e = defaultKmsReuseStr)))
    ∧ (attributesMatch pe se [(k, e)] got = Except.ok ()
      ↔ (e = "" ∨ (k = queueAttributeNameKmsDataKeyReusePeriodSeconds
        ∧ e = defaultKmsReuseStr))) := by
  refine ⟨fun hok =>
      attributesMatch_ok_missing pe se expected got k e hmem hmiss hok, ?_, ?_⟩
  · intro hok
    exact attributesMatch_ok_missing pe se [(k, e)] got k e (by simp) hmiss hok
  · intro hcond
    rcases hcond with rfl | ⟨rfl, rfl⟩
    · simp [attributesMatch, hmiss]
    · simp [attributesMatch, hmiss, defaultKmsReuseStr,
        DefaultQueueKMSDataKeyReusePeriodSeconds]

/-- Witness for C9 at a missing non-special attribute and at the special
KMS default. -/
theorem attributesMatch_missing_key_witness :
    ((attributesMatch (fun _ _ => Except.ok true) (fun _ _ => true)
        [((("VisibilityTimeout")), (("30")))] [] = Except.ok () →
      ((("30") : String) = ""
        ∨ ((("VisibilityTimeout") : String)
            = queueAttributeNameKmsDataKeyReusePeriodSeconds
          ∧ (("30") : String) = defaultKmsReuseStr)))
    ∧ (attributesMatch (fun _ _ => Except.ok true) (fun _ _ => true)
        [((("VisibilityTimeout")), (("30")))] [] = Except.ok ()
      ↔ ((("30") : String) = ""
        ∨ ((("VisibilityTimeout") : String)
            = queueAttributeNameKmsDataKeyReusePeriodSeconds
          ∧ (("30") : String) = defaultKmsReuseStr)))) :=
  attributesMatch_missing_key (fun _ _ => Except.ok true) (fun _ _ => true)
    [((("VisibilityTimeout")), (("30")))] [] ("VisibilityTimeout") ("30")
    (by simp) rfl

end Spec2Proof
